import Mathlib

/-!
Verification development for the senc-ai chat backend.

The definitions below are a shallow embedding of the server code:
* `src/server/routes/chat.js` — the chat router: the `/send` pipeline
  (validation, daily quota, conversation bookkeeping, provider dispatch,
  usage upsert), the conversation list/read/delete endpoints, and the
  provider adapters `callGoogleAI` / `callOpenRouter` with `calculateCost`;
* `src/server/middleware/auth.js` — `authenticateToken` and `userRateLimit`;
* `src/server/database/init.js` — the relevant tables (`conversations`,
  `messages`, `user_usage` with `UNIQUE(user_id, date)`, `settings`,
  `api_keys`).

SQLite rows become Lean structures; tables become lists; `CURRENT_TIMESTAMP`
becomes a strictly increasing logical clock on the database state; the
external HTTP calls of the adapters are abstracted by an oracle carrying the
provider's reply (its text, its reported `usage.total_tokens`, and whether
the request throws).  Monetary amounts (JS numbers) are modelled as exact
rationals.
-/

/-- A row of the `users` table, restricted to the columns the auth
middleware selects: `SELECT id, email, name, role, is_active FROM users`. -/
structure User where
  id : Nat
  email : String
  name : String
  role : String
  is_active : Bool
deriving DecidableEq, Repr

/-- A row of the `conversations` table. -/
structure Conversation where
  id : Nat
  user_id : Nat
  title : String
  provider : String
  model : String
  created_at : Nat
  updated_at : Nat
deriving DecidableEq, Repr

/-- A row of the `messages` table. -/
structure Message where
  id : Nat
  conversation_id : Nat
  role : String
  content : String
  tokens_used : Nat
  cost : Rat
  created_at : Nat
deriving DecidableEq, Repr

/-- A row of the `user_usage` table (`UNIQUE(user_id, date)`). -/
structure UsageRow where
  user_id : Nat
  date : String
  messages_sent : Nat
  tokens_used : Nat
  cost : Rat
deriving DecidableEq, Repr

/-- A row of the `api_keys` table, restricted to the columns the adapters
read: `SELECT api_key FROM api_keys WHERE provider = ? AND is_active = 1`. -/
structure ApiKey where
  provider : String
  api_key : String
  is_active : Bool
deriving DecidableEq, Repr

/-- The relational store, plus the id counters (sqlite rowids) and a logical
clock standing for `CURRENT_TIMESTAMP`; each write that stamps a timestamp
bumps the clock, so later writes carry strictly larger timestamps. -/
structure DB where
  users : List User
  conversations : List Conversation
  messages : List Message
  user_usage : List UsageRow
  settings : List (String × String)
  api_keys : List ApiKey
  nextConvId : Nat
  nextMsgId : Nat
  clock : Nat
deriving DecidableEq, Repr

/-- `SELECT value FROM settings WHERE key = ?`. -/
def settingValue (db : DB) (k : String) : Option String :=
  (db.settings.find? (fun kv => kv.1 == k)).map (fun kv => kv.2)

/-- The value of a maximal leading run of decimal digits, as JS `parseInt`
reads it (parsing stops at the first non-digit). -/
def takeDigits : List Char → List Nat
  | [] => []
  | c :: cs => if c.isDigit then (c.toNat - 48) :: takeDigits cs else []

/-- JS `parseInt(s)` (radix 10): optional sign then a maximal digit prefix;
`none` models `NaN` (no digits).  The app only stores plain numerals such as
`'100'` in the `settings` table. -/
def parseIntJS (s : String) : Option Int :=
  let cs := s.toList.dropWhile (fun ch =>
    ch == ' ' || ch == '\t' || ch == '\n' || ch == '\r')
  let signRest : Int × List Char :=
    match cs with
    | '-' :: r => (-1, r)
    | '+' :: r => (1, r)
    | r => (1, r)
  match takeDigits signRest.2 with
  | [] => none
  | ds => some (signRest.1 * (ds.foldl (fun acc d => acc * 10 + d) 0 : Nat))

/-- chat.js `calculateCost(model, tokens)`: a fixed per-token rate table with
a `0.001` default, times the token count.  (`(rates[model] || 0.001) * tokens`;
no listed rate is zero, so the JS `||` is a plain lookup-with-default.) -/
def calculateCost (model : String) (tokens : Nat) : Rat :=
  let rate : Rat :=
    if model = "openai/gpt-3.5-turbo" then 0.002 / 1000
    else if model = "openai/gpt-4" then 0.03 / 1000
    else if model = "anthropic/claude-3-haiku" then 0.00025 / 1000
    else if model = "anthropic/claude-3-sonnet" then 0.003 / 1000
    else 0.001
  rate * tokens

/-- `SELECT api_key FROM api_keys WHERE provider = ? AND is_active = 1 LIMIT 1`
(the adapters only read the `api_keys` table, so they take it directly). -/
def activeApiKey (keys : List ApiKey) (prov : String) : Option String :=
  (keys.find? (fun k2 => k2.provider == prov && k2.is_active)).map
    (fun k2 => k2.api_key)

/-- The provider's reply, abstracting the external HTTP exchange: whether
the request throws, the completion text the handler reads, and the
`usage.total_tokens` field of the provider's JSON reply (absent ⇒ `none`). -/
structure AIOracle where
  fails : Bool
  text : String
  totalTokens : Option Nat
deriving DecidableEq, Repr

/-- chat.js `callGoogleAI(messages, model)`: throws (`none`) when no active
Google key is configured or the HTTP call fails; otherwise returns only
`response.data.candidates[0].content.parts[0].text` — it reads no usage data
and computes no cost.  (The prompt it posts is the `role: content` lines of
`messages` joined by newlines; the reply is abstracted by the oracle.) -/
def callGoogleAI (keys : List ApiKey) (oracle : AIOracle)
    (_messages : List (String × String)) (_model : String) : Option String :=
  match activeApiKey keys "google" with
  | none => none
  | some _ => if oracle.fails then none else some oracle.text

/-- chat.js `callOpenRouter(messages, model)`: throws (`none`) when no active
OpenRouter key is configured or the HTTP call fails; otherwise returns the
completion text, `usage.total_tokens || 0`, and `calculateCost` of that
count.  (The posted messages are `messages` with every non-assistant role
mapped to `user`; the reply is abstracted by the oracle.) -/
def callOpenRouter (keys : List ApiKey) (oracle : AIOracle)
    (_messages : List (String × String)) (model : String) :
    Option (String × Nat × Rat) :=
  match activeApiKey keys "openrouter" with
  | none => none
  | some _ =>
    if oracle.fails then none
    else
      let totalTokens := oracle.totalTokens.getD 0
      some (oracle.text, totalTokens, calculateCost model totalTokens)

/-- The body of `POST /send` after JSON parsing. -/
structure SendReq where
  message : String
  conversationId : Option Nat
  provider : String
  model : String
deriving DecidableEq, Repr

/-- The Joi schema `sendMessageSchema`: `message` a string of 1..4000 chars,
`provider` one of `'google' | 'openrouter'`, `model` a required (hence
non-empty, per Joi's default) string, `conversationId` an optional integer. -/
def validateSend (req : SendReq) : Bool :=
  decide (1 ≤ req.message.length) && decide (req.message.length ≤ 4000) &&
  (req.provider == "google" || req.provider == "openrouter") &&
  !(req.model == "")

/-- `SELECT messages_sent ... FROM user_usage WHERE user_id = ? AND date = ?`
at the list level. -/
def findUsage (rows : List UsageRow) (userId : Nat) (today : String) :
    Option UsageRow :=
  rows.find? (fun r => r.user_id == userId && r.date == today)

/-- The user's usage row for the current date. -/
def dailyUsageRow (db : DB) (userId : Nat) (today : String) : Option UsageRow :=
  findUsage db.user_usage userId today

/-- `parseInt(
      db.prepare(...).get('max_messages_per_day')?.value || '100')`:
the stored value, with `'100'` substituted when the setting is absent or its
value is the (falsy) empty string, then parsed; `none` models `NaN`. -/
def maxMessagesSetting (db : DB) : Option Int :=
  parseIntJS (match settingValue db "max_messages_per_day" with
    | none => "100"
    | some v => if v == "" then "100" else v)

/-- chat.js line 91: `dailyUsage && dailyUsage.messages_sent >= maxMessages`.
When no usage row exists the guard is falsy; comparison with `NaN` is false. -/
def quotaExceeded (db : DB) (userId : Nat) (today : String) : Bool :=
  match dailyUsageRow db userId today, maxMessagesSetting db with
  | some r, some m => decide (m ≤ (r.messages_sent : Int))
  | _, _ => false

/-- `INSERT INTO messages (conversation_id, role, content, ...) VALUES ...`:
fails (`none`) when the referenced conversation does not exist, since
`PRAGMA foreign_keys = ON` makes the insert throw; omitted counters default
to 0 per the schema. -/
def insertMessage (db : DB) (cid : Nat) (role content : String)
    (tk : Nat) (c : Rat) : Option DB :=
  if db.conversations.any (fun cv => cv.id == cid) then
    some { db with
      messages := db.messages ++
        [{ id := db.nextMsgId, conversation_id := cid, role := role,
           content := content, tokens_used := tk, cost := c,
           created_at := db.clock }],
      nextMsgId := db.nextMsgId + 1,
      clock := db.clock + 1 }
  else none

/-- Messages are ordered by their `created_at` stamp (ascending), the order
the history and read queries request. -/
def msgLE (a b : Message) : Prop :=
  a.created_at ≤ b.created_at

instance : DecidableRel msgLE := fun a b => Nat.decLe a.created_at b.created_at

instance : IsTotal Message msgLE :=
  ⟨fun a b => Nat.le_total a.created_at b.created_at⟩

instance : IsTrans Message msgLE :=
  ⟨fun _ _ _ h1 h2 => Nat.le_trans h1 h2⟩

/-- `SELECT role, content FROM messages WHERE conversation_id = ?
ORDER BY created_at ASC LIMIT 20` — the rows, before the column projection. -/
def historyQuery (db : DB) (cid : Nat) : List Message :=
  (List.insertionSort msgLE
    (db.messages.filter (fun m => m.conversation_id == cid))).take 20

/-- `UPDATE conversations SET updated_at = CURRENT_TIMESTAMP WHERE id = ?`. -/
def touchConversation (db : DB) (cid : Nat) : DB :=
  { db with
    conversations := db.conversations.map
      (fun cv => if cv.id == cid then { cv with updated_at := db.clock } else cv),
    clock := db.clock + 1 }

/-- `INSERT INTO user_usage (user_id, date, messages_sent, tokens_used, cost)
VALUES (?, ?, 1, ?, ?) ON CONFLICT(user_id, date) DO UPDATE SET
messages_sent = messages_sent + 1, tokens_used = tokens_used + ?,
cost = cost + ?`, at the list level. -/
def upsertUsageRows (rows : List UsageRow) (userId : Nat) (today : String)
    (tk : Nat) (c : Rat) : List UsageRow :=
  if rows.any (fun r => r.user_id == userId && r.date == today) then
    rows.map (fun r =>
      if r.user_id == userId && r.date == today then
        { r with messages_sent := r.messages_sent + 1,
                 tokens_used := r.tokens_used + tk, cost := r.cost + c }
      else r)
  else
    rows ++ [{ user_id := userId, date := today, messages_sent := 1,
               tokens_used := tk, cost := c }]

/-- The usage upsert on the whole store. -/
def upsertUsage (db : DB) (userId : Nat) (today : String) (tk : Nat) (c : Rat) :
    DB :=
  { db with user_usage := upsertUsageRows db.user_usage userId today tk c }

/-- The handler's outcome, one constructor per `res.status(...).json(...)`
exit of `POST /send`. -/
inductive SendResult where
  /-- 200: `{ message, conversationId, tokensUsed, cost }`. -/
  | ok (message : String) (conversationId : Nat) (tokensUsed : Nat) (cost : Rat)
  /-- 400: the Joi validation error. -/
  | badRequest
  /-- 429: `'Daily message limit reached'`. -/
  | tooMany
  /-- 500: `'AI service temporarily unavailable'` (the adapter threw). -/
  | unavailable
  /-- 500: `'Internal server error'` (the outer catch). -/
  | internalError
deriving DecidableEq, Repr

/-- The HTTP status each exit responds with. -/
def httpStatus : SendResult → Nat
  | .ok _ _ _ _ => 200
  | .badRequest => 400
  | .tooMany => 429
  | .unavailable => 500
  | .internalError => 500

/-- The `error` field each non-200 exit responds with (the 400 text is the
Joi detail message, abstracted here). -/
def httpError : SendResult → Option String
  | .ok _ _ _ _ => none
  | .badRequest => some "validation"
  | .tooMany => some "Daily message limit reached"
  | .unavailable => some "AI service temporarily unavailable"
  | .internalError => some "Internal server error"

/-- The steps of the `/send` pipeline, in the order the handler runs them. -/
inductive Ev where
  | validate
  | quotaCheck
  | createConv (id : Nat)
  | insertUserMsg
  | fetchHistory
  | dispatch (provider : String)
  | insertAssistantMsg
  | touchConv
  | upsertUsageEv
  | respond
deriving DecidableEq, Repr

/-- A run of the `/send` handler: its response, the store it leaves behind,
the steps it performed in order, and the history rows it selected for the
provider (when it got that far). -/
structure SendOut where
  result : SendResult
  db : DB
  events : List Ev
  histRows : Option (List Message)
deriving DecidableEq, Repr

/-- The tail of the pipeline once the adapter has answered (chat.js lines
138–164): insert the assistant message with its tokens and cost, bump the
conversation's `updated_at`, upsert the day's usage counters, respond. -/
def finishSend (db2 : DB) (cid userId : Nat) (today text : String)
    (tk : Nat) (c : Rat) (ev : List Ev) (hist : List Message) : SendOut :=
  match insertMessage db2 cid "assistant" text tk c with
  | none => { result := .internalError, db := db2, events := ev, histRows := some hist }
  | some db3 =>
    let db4 := touchConversation db3 cid
    let db5 := upsertUsage db4 userId today tk c
    { result := .ok text cid tk c, db := db5,
      events := ev ++ [.insertAssistantMsg, .touchConv, .upsertUsageEv, .respond],
      histRows := some hist }

/-- The row `INSERT INTO conversations (user_id, title, provider, model)`
creates: owned by the sender, titled `message.substring(0, 50) + '...'`. -/
def newConversation (db : DB) (userId : Nat) (req : SendReq) : Conversation :=
  { id := db.nextConvId, user_id := userId,
    title := req.message.take 50 ++ "...",
    provider := req.provider, model := req.model,
    created_at := db.clock, updated_at := db.clock }

/-- chat.js lines 95–103 (get or create conversation): a supplied
`conversationId` is used as-is — the handler checks neither that it exists
nor that it belongs to the requester; without one, a conversation is
inserted, titled with the first 50 characters of the message plus `'...'`.
Returns the store, the conversation id to use, and the steps so far. -/
def stageConv (db : DB) (userId : Nat) (req : SendReq) : DB × Nat × List Ev :=
  match req.conversationId with
  | some cid => (db, cid, [.validate, .quotaCheck])
  | none =>
    ({ db with
       conversations := db.conversations ++ [newConversation db userId req],
       nextConvId := db.nextConvId + 1, clock := db.clock + 1 },
     db.nextConvId, [.validate, .quotaCheck, .createConv db.nextConvId])

/-- The `POST /send` handler (chat.js lines 71–169), for the authenticated
user `userId` on date `today` (`new Date().toISOString().split('T')[0]`):
validate the body, check the daily quota, get or create the conversation,
insert the user message, select the 20 oldest messages of the conversation
as context, dispatch to the adapter named by `provider`, then finish.  An
adapter failure is caught and answered with 500 before anything further is
written. -/
def sendHandler (db : DB) (userId : Nat) (req : SendReq) (oracle : AIOracle)
    (today : String) : SendOut :=
  if validateSend req then
    if quotaExceeded db userId today then
      { result := .tooMany, db := db, events := [.validate, .quotaCheck],
        histRows := none }
    else
      let stage1 := stageConv db userId req
      let db1 := stage1.1
      let cid := stage1.2.1
      match insertMessage db1 cid "user" req.message 0 0 with
      | none =>
        { result := .internalError, db := db1, events := stage1.2.2,
          histRows := none }
      | some db2 =>
        let hist := historyQuery db2 cid
        let histPairs := hist.map (fun m => (m.role, m.content))
        let ev := stage1.2.2 ++ [.insertUserMsg, .fetchHistory, .dispatch req.provider]
        if req.provider == "google" then
          match callGoogleAI db2.api_keys oracle histPairs req.model with
          | none =>
            { result := .unavailable, db := db2, events := ev,
              histRows := some hist }
          | some text => finishSend db2 cid userId today text 0 0 ev hist
        else if req.provider == "openrouter" then
          match callOpenRouter db2.api_keys oracle histPairs req.model with
          | none =>
            { result := .unavailable, db := db2, events := ev,
              histRows := some hist }
          | some r => finishSend db2 cid userId today r.1 r.2.1 r.2.2 ev hist
        else
          -- unreachable past validation: no adapter is called, `aiResponse`
          -- stays undefined and the assistant insert throws to the outer catch
          { result := .internalError, db := db2,
            events := stage1.2.2 ++ [.insertUserMsg, .fetchHistory],
            histRows := some hist }
  else
    { result := .badRequest, db := db, events := [.validate], histRows := none }

/-- `GET /conversations/:id/messages`: 404 (`none`) unless a conversation
with this id belongs to the requester, else its messages ordered by
`created_at` ascending. -/
def getConversationMessages (db : DB) (userId cid : Nat) :
    Option (List Message) :=
  match db.conversations.find? (fun cv => cv.id == cid && cv.user_id == userId) with
  | none => none
  | some _ =>
    some (List.insertionSort msgLE
      (db.messages.filter (fun m => m.conversation_id == cid)))

/-- `DELETE /conversations/:id`: `DELETE FROM conversations WHERE id = ? AND
user_id = ?`; zero changed rows answers 404 (`false`), else the conversation
and (by `ON DELETE CASCADE`) its messages are removed. -/
def deleteConversation (db : DB) (userId cid : Nat) : Bool × DB :=
  if db.conversations.any (fun cv => cv.id == cid && cv.user_id == userId) then
    (true,
     { db with
       conversations := db.conversations.filter
         (fun cv => !(cv.id == cid && cv.user_id == userId)),
       messages := db.messages.filter (fun m => !(m.conversation_id == cid)) })
  else (false, db)

/-- The payload `jwt.sign({ userId, role }, ...)` puts in a token. -/
structure JwtPayload where
  userId : Nat
  role : String
deriving DecidableEq, Repr

/-- JS `String.prototype.split` with a single-character separator, on the
character list: splitting the empty string yields one empty field, and every
separator starts a new field. -/
def splitChars (sep : Char) : List Char → List (List Char)
  | [] => [[]]
  | c :: cs =>
    if c == sep then [] :: splitChars sep cs
    else
      match splitChars sep cs with
      | [] => [[c]]
      | g :: gs => (c :: g) :: gs

/-- `authHeader && authHeader.split(' ')[1]`: the part after the first space
of the `Authorization` header; a missing header, a missing part, or the
(falsy) empty string all count as no token. -/
def extractToken (authHeader : Option String) : Option String :=
  match authHeader with
  | none => none
  | some h =>
    match ((splitChars ' ' h.toList).map List.asString).get? 1 with
    | none => none
    | some t => if t == "" then none else some t

/-- The middleware's outcome: an error response, or `next()` with the loaded
user attached as `req.user`. -/
inductive AuthOutcome where
  | reject (status : Nat) (error : String)
  | proceed (user : User)
deriving DecidableEq, Repr

/-- auth.js `authenticateToken` (lines 15–39): 401 without a bearer token,
403 when `jwt.verify` fails (`verify` abstracts it: `none` is a verification
error), 403 when the decoded `userId` matches no user row or the row is
inactive; otherwise the selected columns are attached and the chain
continues. -/
def authenticateToken (verify : String → Option JwtPayload) (db : DB)
    (authHeader : Option String) : AuthOutcome :=
  match extractToken authHeader with
  | none => .reject 401 "Access token required"
  | some tok =>
    match verify tok with
    | none => .reject 403 "Invalid or expired token"
    | some decoded =>
      match db.users.find? (fun u => u.id == decoded.userId) with
      | none => .reject 403 "User not found or inactive"
      | some u =>
        if u.is_active then .proceed u
        else .reject 403 "User not found or inactive"

/-- `Math.ceil(a / 1000)` on integer timestamps: for a positive divisor the
ceiling of the quotient equals the floor of `(a + 999) / 1000`, which is what
`Int` division computes. -/
def ceilDiv1000 (a : Int) : Int :=
  (a + 999) / 1000

/-- `userRequests.filter(time => time > windowStart)` with
`windowStart = now - windowMs`. -/
def pruneWindow (windowMs now : Int) (l : List Int) : List Int :=
  l.filter (fun t => decide (now - windowMs < t))

/-- The body of the 429 reply of `userRateLimit`. -/
structure RateLimited where
  retryAfter : Int
deriving DecidableEq, Repr

/-- One request through auth.js `userRateLimit(maxRequests, windowMs)` for a
single identity (the closure keeps a `Map` of independent per-identity
timestamp lists; `stored` is this identity's list, `now` is `Date.now()`).
Timestamps outside the window are pruned; with `maxRequests` or more left the
request is answered 429 carrying
`Math.ceil((validRequests[0] + windowMs - now) / 1000)` and the stored list
is not updated; otherwise `now` is appended and the request proceeds. -/
def userRateLimitStep (maxRequests : Nat) (windowMs : Int)
    (stored : List Int) (now : Int) : Option RateLimited × List Int :=
  if maxRequests ≤ (pruneWindow windowMs now stored).length then
    (some { retryAfter :=
              ceilDiv1000 ((pruneWindow windowMs now stored).headD 0
                + windowMs - now) },
     stored)
  else
    (none, pruneWindow windowMs now stored ++ [now])

/-- A sequence of requests at the given times through the limiter, starting
from `accepted` already-accepted times and the `stored` list; returns the
times of all accepted requests. -/
def userRateLimitRun (maxRequests : Nat) (windowMs : Int) :
    List Int → List Int → List Int → List Int
  | accepted, _, [] => accepted
  | accepted, stored, now :: rest =>
    match userRateLimitStep maxRequests windowMs stored now with
    | (some _, stored2) => userRateLimitRun maxRequests windowMs accepted stored2 rest
    | (none, stored2) =>
      userRateLimitRun maxRequests windowMs (accepted ++ [now]) stored2 rest

/-- C7: `calculateCost(model, tokens)` is `rate(model) × tokens` with the
rates `0.002/1000` (gpt-3.5-turbo), `0.03/1000` (gpt-4), `0.00025/1000`
(claude-3-haiku), `0.003/1000` (claude-3-sonnet) and `0.001` per token for
any other model (here written as reduced fractions); the estimate is zero at
zero tokens and monotone non-decreasing in the token count. -/
theorem c7_calculate_cost :
    (∀ t : Nat, calculateCost "openai/gpt-3.5-turbo" t = (1 / 500000 : Rat) * t) ∧
    (∀ t : Nat, calculateCost "openai/gpt-4" t = (3 / 100000 : Rat) * t) ∧
    (∀ t : Nat, calculateCost "anthropic/claude-3-haiku" t = (1 / 4000000 : Rat) * t) ∧
    (∀ t : Nat, calculateCost "anthropic/claude-3-sonnet" t = (3 / 1000000 : Rat) * t) ∧
    (∀ (m : String) (t : Nat),
      m ∉ (["openai/gpt-3.5-turbo", "openai/gpt-4", "anthropic/claude-3-haiku",
            "anthropic/claude-3-sonnet"] : List String) →
      calculateCost m t = (1 / 1000 : Rat) * t) ∧
    (∀ m : String, calculateCost m 0 = 0) ∧
    (∀ (m : String) (t1 t2 : Nat), t1 ≤ t2 →
      calculateCost m t1 ≤ calculateCost m t2) := by
  refine ⟨?_, ?_, ?_, ?_, ?_, ?_, ?_⟩
  · intro t; unfold calculateCost
    rw [if_pos rfl]; norm_num
  · intro t; unfold calculateCost
    rw [if_neg (by decide), if_pos rfl]; norm_num
  · intro t; unfold calculateCost
    rw [if_neg (by decide), if_neg (by decide), if_pos rfl]; norm_num
  · intro t; unfold calculateCost
    rw [if_neg (by decide), if_neg (by decide), if_neg (by decide), if_pos rfl]
    norm_num
  · intro m t hm
    simp only [List.mem_cons, List.not_mem_nil, or_false] at hm
    push_neg at hm
    unfold calculateCost
    rw [if_neg hm.1, if_neg hm.2.1, if_neg hm.2.2.1, if_neg hm.2.2.2]
    norm_num
  · intro m; unfold calculateCost; simp
  · intro m t1 t2 h
    unfold calculateCost
    apply mul_le_mul_of_nonneg_left (by exact_mod_cast h)
    split_ifs <;> norm_num

/-- C7 witness: the theorem applied at concrete inputs — the default rate at
an unlisted model and monotonicity at 2 ≤ 3 for gpt-4. -/
theorem c7_calculate_cost_witness :
    calculateCost "gemini-pro" 7 = (1 / 1000 : Rat) * 7 ∧
    calculateCost "openai/gpt-4" 2 ≤ calculateCost "openai/gpt-4" 3 :=
  ⟨c7_calculate_cost.2.2.2.2.1 "gemini-pro" 7 (by decide),
   c7_calculate_cost.2.2.2.2.2.2 "openai/gpt-4" 2 3 (by decide)⟩

/-- C8: `authenticateToken` rejects a request without a bearer token with
401, one whose token fails verification with 403, one whose decoded userId
matches no user row or an inactive user with 403; any request it lets
through carries an existing, active user whose id is the verified token's
`userId`. -/
theorem c8_authenticate_token (verify : String → Option JwtPayload) (db : DB)
    (hdr : Option String) :
    (extractToken hdr = none →
      authenticateToken verify db hdr = .reject 401 "Access token required") ∧
    (∀ tok, extractToken hdr = some tok → verify tok = none →
      authenticateToken verify db hdr = .reject 403 "Invalid or expired token") ∧
    (∀ tok p, extractToken hdr = some tok → verify tok = some p →
      (db.users.find? (fun u => u.id == p.userId) = none ∨
        (∃ u, db.users.find? (fun u2 => u2.id == p.userId) = some u ∧
          u.is_active = false)) →
      authenticateToken verify db hdr = .reject 403 "User not found or inactive") ∧
    (∀ u, authenticateToken verify db hdr = .proceed u →
      u ∈ db.users ∧ u.is_active = true ∧
      ∃ tok p, extractToken hdr = some tok ∧ verify tok = some p ∧
        u.id = p.userId) := by
  refine ⟨?_, ?_, ?_, ?_⟩
  · intro h; simp [authenticateToken, h]
  · intro tok h hv; simp [authenticateToken, h, hv]
  · intro tok p h hv hu
    rcases hu with hu | ⟨u, hu, hia⟩
    · simp [authenticateToken, h, hv, hu]
    · simp [authenticateToken, h, hv, hu, hia]
  · intro u h
    rcases he : extractToken hdr with _ | tok
    · simp [authenticateToken, he] at h
    · rcases hv : verify tok with _ | p
      · simp [authenticateToken, he, hv] at h
      · rcases hf : db.users.find? (fun u2 => u2.id == p.userId) with _ | u2
        · simp [authenticateToken, he, hv, hf] at h
        · by_cases hia : u2.is_active = true
          · have hu2 : u2 = u := by
              simpa [authenticateToken, he, hv, hf, hia] using h
            subst hu2
            refine ⟨List.mem_of_find?_eq_some hf, hia, tok, p, rfl, hv, ?_⟩
            have h2 := List.find?_some hf
            simpa using h2
          · simp [authenticateToken, he, hv, hf, hia] at h

/-- C8 witness: the theorem applied to a concrete store, verifier and header
on the proceed path. -/
theorem c8_authenticate_token_witness :
    (⟨1, "a@ex.com", "Alice", "user", true⟩ : User) ∈
      ({ users := [⟨1, "a@ex.com", "Alice", "user", true⟩],
         conversations := [], messages := [], user_usage := [], settings := [],
         api_keys := [], nextConvId := 1, nextMsgId := 1, clock := 0 } : DB).users ∧
    (⟨1, "a@ex.com", "Alice", "user", true⟩ : User).is_active = true ∧
    ∃ tok p,
      extractToken (some "Bearer tok1") = some tok ∧
      (fun t => if t == "tok1" then some (⟨1, "user"⟩ : JwtPayload) else none) tok
        = some p ∧
      (⟨1, "a@ex.com", "Alice", "user", true⟩ : User).id = p.userId :=
  (c8_authenticate_token
    (fun t => if t == "tok1" then some (⟨1, "user"⟩ : JwtPayload) else none)
    { users := [⟨1, "a@ex.com", "Alice", "user", true⟩],
      conversations := [], messages := [], user_usage := [], settings := [],
      api_keys := [], nextConvId := 1, nextMsgId := 1, clock := 0 }
    (some "Bearer tok1")).2.2.2
    ⟨1, "a@ex.com", "Alice", "user", true⟩ (by decide)

theorem ceilDiv1000_le_iff (a k : Int) : ceilDiv1000 a ≤ k ↔ a ≤ 1000 * k := by
  unfold ceilDiv1000; omega

/-- In a list sorted nondecreasingly, the head (the JS `[0]` element) is a
lower bound of every element. -/
theorem sorted_headD_le (l : List Int) (hs : l.Pairwise (· ≤ ·)) :
    ∀ x ∈ l, l.headD 0 ≤ x := by
  cases l with
  | nil => intro x hx; simp at hx
  | cons a t =>
    intro x hx
    rcases List.mem_cons.mp hx with rfl | hx2
    · simp
    · simpa using (List.pairwise_cons.mp hs).1 x hx2

theorem countP_pruneWindow_eq (w now c : Int) (stored : List Int)
    (hc : now - w ≤ c) :
    (pruneWindow w now stored).countP (fun x => decide (c < x))
      = stored.countP (fun x => decide (c < x)) := by
  unfold pruneWindow
  rw [List.countP_filter]
  refine List.countP_congr (fun x _ => ?_)
  by_cases h : c < x
  · simp [h]; omega
  · simp [h]

/-- Sliding-window invariant of the limiter: if the already-accepted times
satisfy the window bound and are each counted by the stored list on every
suffix of the current window, then after any nondecreasing run of further
requests every window still holds at most `maxR` accepted times. -/
theorem rlRun_window_bound (maxR : Nat) (w : Int) :
    ∀ (trace accepted stored : List Int) (cur : Int),
    (∀ x ∈ trace, cur ≤ x) →
    trace.Pairwise (· ≤ ·) →
    (∀ c : Int, cur - w ≤ c →
      accepted.countP (fun x => decide (c < x))
        ≤ stored.countP (fun x => decide (c < x))) →
    (∀ t : Int, accepted.countP (fun x => decide (t - w < x ∧ x ≤ t)) ≤ maxR) →
    ∀ t : Int, (userRateLimitRun maxR w accepted stored trace).countP
      (fun x => decide (t - w < x ∧ x ≤ t)) ≤ maxR := by
  intro trace
  induction trace with
  | nil =>
    intro accepted stored cur _ _ _ hbase t
    simpa [userRateLimitRun] using hbase t
  | cons now rest ih =>
    intro accepted stored cur htr hmono hcount hbase t
    have hcurnow : cur ≤ now := htr now (by simp)
    have htr2 : ∀ x ∈ rest, now ≤ x := (List.pairwise_cons.mp hmono).1
    have hmono2 := (List.pairwise_cons.mp hmono).2
    by_cases hfull : maxR ≤ (pruneWindow w now stored).length
    · have hstep : userRateLimitRun maxR w accepted stored (now :: rest)
          = userRateLimitRun maxR w accepted stored rest := by
        simp [userRateLimitRun, userRateLimitStep, hfull]
      rw [hstep]
      exact ih accepted stored now htr2 hmono2
        (fun c hc => hcount c (by omega)) hbase t
    · push_neg at hfull
      have hstep : userRateLimitRun maxR w accepted stored (now :: rest)
          = userRateLimitRun maxR w (accepted ++ [now])
              (pruneWindow w now stored ++ [now]) rest := by
        simp [userRateLimitRun, userRateLimitStep, Nat.not_le.mpr hfull]
      rw [hstep]
      refine ih (accepted ++ [now]) (pruneWindow w now stored ++ [now]) now
        htr2 hmono2 ?_ ?_ t
      · intro c hc
        rw [List.countP_append, List.countP_append,
          countP_pruneWindow_eq w now c stored hc]
        exact Nat.add_le_add_right (hcount c (by omega)) _
      · intro t2
        rw [List.countP_append, List.countP_singleton]
        by_cases hwt : t2 - w < now ∧ now ≤ t2
        · have h1 : accepted.countP (fun x => decide (t2 - w < x ∧ x ≤ t2))
              ≤ accepted.countP (fun x => decide (now - w < x)) := by
            refine List.countP_mono_left (fun x _ hpx => ?_)
            simp only [decide_eq_true_eq] at hpx ⊢
            omega
          have h2 := hcount (now - w) (by omega)
          have h3 : stored.countP (fun x => decide (now - w < x))
              = (pruneWindow w now stored).length := by
            rw [List.countP_eq_length_filter]; rfl
          rw [if_pos (by simpa using hwt)]
          omega
        · rw [if_neg (by simpa using hwt)]
          simpa using hbase t2

/-- C4: the chat router's per-user limiter (`userRateLimit(30, 60000)`), for
one user identity.  A request that finds 30 or more accepted timestamps
inside the sliding 60000 ms window is rejected: the stored list is left
unchanged (no timestamp is recorded) and the reply carries `retryAfter`
equal to the least number of whole seconds after which the oldest remaining
timestamp (the head of the pruned, sorted list) leaves the window.  A
request that finds fewer proceeds, its time appended.  Consequently any
nondecreasing request sequence has at most 30 accepted times inside every
sliding 60-second window. -/
theorem c4_rate_limiter :
    (∀ (stored : List Int) (now : Int),
      30 ≤ (pruneWindow 60000 now stored).length →
      (userRateLimitStep 30 60000 stored now
          = (some { retryAfter :=
                ceilDiv1000 ((pruneWindow 60000 now stored).headD 0
                  + 60000 - now) }, stored))
      ∧ (stored.Pairwise (· ≤ ·) →
          ∀ x ∈ pruneWindow 60000 now stored,
            (pruneWindow 60000 now stored).headD 0 ≤ x)
      ∧ (∀ k : Int,
          ceilDiv1000 ((pruneWindow 60000 now stored).headD 0 + 60000 - now) ≤ k
            ↔ (pruneWindow 60000 now stored).headD 0 + 60000 ≤ now + 1000 * k))
    ∧ (∀ (stored : List Int) (now : Int),
      (pruneWindow 60000 now stored).length < 30 →
      userRateLimitStep 30 60000 stored now
        = (none, pruneWindow 60000 now stored ++ [now]))
    ∧ (∀ trace : List Int, trace.Pairwise (· ≤ ·) →
      ∀ t : Int, (userRateLimitRun 30 60000 [] [] trace).countP
        (fun x => decide (t - 60000 < x ∧ x ≤ t)) ≤ 30) := by
  refine ⟨?_, ?_, ?_⟩
  · intro stored now hfull
    refine ⟨by simp [userRateLimitStep, hfull], ?_, ?_⟩
    · intro hs
      exact sorted_headD_le _ (hs.filter _)
    · intro k
      rw [ceilDiv1000_le_iff]
      omega
  · intro stored now hfull
    simp [userRateLimitStep, Nat.not_le.mpr hfull]
  · intro trace hmono t
    exact rlRun_window_bound 30 60000 trace [] [] (trace.headD 0)
      (sorted_headD_le trace hmono) hmono (by simp) (by simp) t

/-- C4 witness: the theorem applied to concrete data — a 31-times-stored
identity is rejected with a 60-second `retryAfter` and unchanged state, a
below-limit one proceeds, and a concrete nondecreasing trace respects the
window bound. -/
theorem c4_rate_limiter_witness :
    (userRateLimitStep 30 60000 (List.replicate 31 (0 : Int)) 0
      = (some { retryAfter := 60 }, List.replicate 31 (0 : Int)))
    ∧ userRateLimitStep 30 60000 [0, 1] 2
        = (none, pruneWindow 60000 2 [0, 1] ++ [2])
    ∧ (userRateLimitRun 30 60000 [] [] [0, 1, 2]).countP
        (fun x => decide ((70000 : Int) - 60000 < x ∧ x ≤ 70000)) ≤ 30 := by
  refine ⟨?_, ?_, ?_⟩
  · have h := (c4_rate_limiter.1 (List.replicate 31 (0 : Int)) 0 (by decide)).1
    rw [h]
    decide
  · exact c4_rate_limiter.2.1 [0, 1] 2 (by decide)
  · exact c4_rate_limiter.2.2 [0, 1, 2] (by decide) 70000

/-- A body passing the Joi schema names one of the two adapters. -/
theorem validate_provider {req : SendReq} (hv : validateSend req = true) :
    req.provider = "google" ∨ req.provider = "openrouter" := by
  unfold validateSend at hv
  simp only [Bool.and_eq_true, Bool.or_eq_true, beq_iff_eq] at hv
  exact hv.1.2

/-- Every exit of the `/send` handler either leaves `user_usage` untouched or
— only when the quota check passed — applies the single additive upsert for
`(userId, today)`. -/
theorem sendHandler_usage_cases (db : DB) (userId : Nat) (req : SendReq)
    (oracle : AIOracle) (today : String) :
    (sendHandler db userId req oracle today).db.user_usage = db.user_usage ∨
    (quotaExceeded db userId today = false ∧ ∃ tk c,
      (sendHandler db userId req oracle today).db.user_usage
        = upsertUsageRows db.user_usage userId today tk c) := by
  by_cases hv : validateSend req = true
  case neg => left; simp [sendHandler, hv]
  by_cases hq : quotaExceeded db userId today = true
  · left; simp [sendHandler, hv, hq]
  · have hq2 : quotaExceeded db userId today = false := by simpa using hq
    rcases validate_provider hv with hpv | hpv
    · rcases hcv : req.conversationId with _ | cid
      · rcases hkg : activeApiKey db.api_keys "google" with _ | k <;>
          cases hff : oracle.fails <;>
          first
            | (left; simp [sendHandler, stageConv, newConversation, insertMessage,
                finishSend, callGoogleAI, touchConversation, upsertUsage, hv, hq,
                hpv, hcv, hkg, hff]; done)
            | (right; exact ⟨hq2, 0, 0, by
                simp [sendHandler, stageConv, newConversation, insertMessage,
                  finishSend, callGoogleAI, touchConversation, upsertUsage, hv,
                  hq, hpv, hcv, hkg, hff]⟩)
      · by_cases hex : db.conversations.any (fun cv => cv.id == cid) = true
        · rcases hkg : activeApiKey db.api_keys "google" with _ | k <;>
            cases hff : oracle.fails <;>
            first
              | (left; simp [sendHandler, stageConv, insertMessage, finishSend,
                  callGoogleAI, touchConversation, upsertUsage, hv, hq, hpv, hcv,
                  hex, hkg, hff]; done)
              | (right; exact ⟨hq2, 0, 0, by
                  simp [sendHandler, stageConv, insertMessage, finishSend,
                    callGoogleAI, touchConversation, upsertUsage, hv, hq, hpv,
                    hcv, hex, hkg, hff]⟩)
        · left
          simp [sendHandler, stageConv, insertMessage, hv, hq, hpv, hcv, hex]
    · rcases hcv : req.conversationId with _ | cid
      · rcases hko : activeApiKey db.api_keys "openrouter" with _ | k <;>
          cases hff : oracle.fails <;>
          first
            | (left; simp [sendHandler, stageConv, newConversation, insertMessage,
                finishSend, callOpenRouter, touchConversation, upsertUsage, hv,
                hq, hpv, hcv, hko, hff]; done)
            | (right; exact ⟨hq2, oracle.totalTokens.getD 0,
                calculateCost req.model (oracle.totalTokens.getD 0), by
                simp [sendHandler, stageConv, newConversation, insertMessage,
                  finishSend, callOpenRouter, touchConversation, upsertUsage, hv,
                  hq, hpv, hcv, hko, hff]⟩)
      · by_cases hex : db.conversations.any (fun cv => cv.id == cid) = true
        · rcases hko : activeApiKey db.api_keys "openrouter" with _ | k <;>
            cases hff : oracle.fails <;>
            first
              | (left; simp [sendHandler, stageConv, insertMessage, finishSend,
                  callOpenRouter, touchConversation, upsertUsage, hv, hq, hpv,
                  hcv, hex, hko, hff]; done)
              | (right; exact ⟨hq2, oracle.totalTokens.getD 0,
                  calculateCost req.model (oracle.totalTokens.getD 0), by
                  simp [sendHandler, stageConv, insertMessage, finishSend,
                    callOpenRouter, touchConversation, upsertUsage, hv, hq, hpv,
                    hcv, hex, hko, hff]⟩)
        · left
          simp [sendHandler, stageConv, insertMessage, hv, hq, hpv, hcv, hex]

theorem find?_map_pred_invariant {α : Type} (f : α → α) (p : α → Bool)
    (l : List α) (hf : ∀ x, p (f x) = p x) :
    (l.map f).find? p = (l.find? p).map f := by
  induction l with
  | nil => rfl
  | cons a t ih =>
    by_cases h : p a = true
    · rw [List.map_cons, List.find?_cons_of_pos _ (by rw [hf]; exact h),
        List.find?_cons_of_pos _ h]
      rfl
    · rw [List.map_cons, List.find?_cons_of_neg _ (by rw [hf]; simpa using h),
        List.find?_cons_of_neg _ (by simpa using h)]
      exact ih

/-- With no row for `(userId, today)`, the SQL upsert inserts the fresh row
`(userId, today, 1, tk, c)`, and the lookup then finds exactly it. -/
theorem findUsage_upsert_none (rows : List UsageRow) (uid : Nat)
    (today : String) (tk : Nat) (c : Rat)
    (h : findUsage rows uid today = none) :
    findUsage (upsertUsageRows rows uid today tk c) uid today
      = some { user_id := uid, date := today, messages_sent := 1,
               tokens_used := tk, cost := c } := by
  have hany : rows.any (fun r => r.user_id == uid && r.date == today) = false := by
    rw [List.any_eq_false]
    intro x hx
    exact List.find?_eq_none.mp h x hx
  unfold upsertUsageRows
  rw [hany]
  simp only [Bool.false_eq_true, if_false]
  unfold findUsage at h ⊢
  rw [List.find?_append, h]
  simp

/-- With an existing row for `(userId, today)`, the SQL upsert adds 1 message,
`tk` tokens and `c` cost to it, and the lookup then finds the updated row. -/
theorem findUsage_upsert_some (rows : List UsageRow) (uid : Nat)
    (today : String) (tk : Nat) (c : Rat) (r : UsageRow)
    (h : findUsage rows uid today = some r) :
    findUsage (upsertUsageRows rows uid today tk c) uid today
      = some { r with
               messages_sent := r.messages_sent + 1,
               tokens_used := r.tokens_used + tk,
               cost := r.cost + c } := by
  unfold findUsage at h ⊢
  have hany : rows.any (fun r2 => r2.user_id == uid && r2.date == today) = true := by
    rw [List.any_eq_true]
    refine ⟨r, List.mem_of_find?_eq_some h, ?_⟩
    simpa using List.find?_some h
  unfold upsertUsageRows
  rw [hany]
  simp only [if_true]
  rw [find?_map_pred_invariant _ _ _ (fun x => by
    by_cases hx : (x.user_id == uid && x.date == today) = true <;> simp [hx]), h]
  have hp := List.find?_some h
  simp only [Option.map_some']
  rw [if_pos hp]

/-- `UNIQUE(user_id, date)`: no two rows share a user and a date. -/
def usageUnique (rows : List UsageRow) : Prop :=
  rows.Pairwise (fun a b => ¬(a.user_id = b.user_id ∧ a.date = b.date))

/-- The SQL upsert preserves the `UNIQUE(user_id, date)` constraint: an
update keeps every key, and an insert only happens when its key is absent. -/
theorem usageUnique_upsert (rows : List UsageRow) (uid : Nat) (today : String)
    (tk : Nat) (c : Rat) (h : usageUnique rows) :
    usageUnique (upsertUsageRows rows uid today tk c) := by
  unfold usageUnique at h ⊢
  unfold upsertUsageRows
  by_cases hany : rows.any (fun r => r.user_id == uid && r.date == today) = true
  · rw [if_pos hany]
    refine List.Pairwise.map _ ?_ h
    intro a b hab
    by_cases ha : (a.user_id == uid && a.date == today) = true <;>
      by_cases hb : (b.user_id == uid && b.date == today) = true <;>
      simpa [ha, hb] using hab
  · rw [if_neg hany]
    rw [List.pairwise_append]
    have h2 : ∀ x ∈ rows, x.user_id = uid → ¬x.date = today := by
      simpa using hany
    refine ⟨h, by simp, ?_⟩
    intro a ha b hb
    rw [List.mem_singleton] at hb
    subst hb
    simpa using h2 a ha

def c2db : DB :=
  { users := [⟨1, "a@ex.com", "Alice", "user", true⟩], conversations := [],
    messages := [], user_usage := [],
    settings := [("max_messages_per_day", "0")],
    api_keys := [⟨"google", "gk", true⟩],
    nextConvId := 1, nextMsgId := 1, clock := 0 }

def c2req : SendReq :=
  { message := "hello there", conversationId := none, provider := "google",
    model := "gemini-pro" }

def c2oracle : AIOracle := { fails := false, text := "resp", totalTokens := none }

/-- C2 counterexample: with `max_messages_per_day` set to `0` and no usage
row yet for the day, the guard `dailyUsage && dailyUsage.messages_sent >=
maxMessages` is falsy, so the send goes through and leaves `messages_sent =
1 > 0` — the claimed consequence "no user's messages_sent ever exceeds the
configured limit via this endpoint" fails at limit 0. -/
theorem c2_counterexample :
    maxMessagesSetting c2db = some 0
    ∧ dailyUsageRow c2db 1 "2026-02-03" = none
    ∧ (sendHandler c2db 1 c2req c2oracle "2026-02-03").result = .ok "resp" 1 0 0
    ∧ dailyUsageRow (sendHandler c2db 1 c2req c2oracle "2026-02-03").db 1
        "2026-02-03"
      = some { user_id := 1, date := "2026-02-03", messages_sent := 1,
               tokens_used := 0, cost := 0 }
    ∧ ¬((1 : Int) ≤ 0) := by
  decide

/-- C2 (amended): for a body passing validation, a request finding an
existing usage row at or above the parsed `max_messages_per_day` is answered
429 `'Daily message limit reached'` with the store untouched; and whenever
the configured limit is at least 1, the endpoint never pushes
`messages_sent` past the limit (a day at or below the limit stays at or
below it — with limit 0 the first send of the day still passes, which is the
one exception the counterexample exhibits). -/
theorem c2_quota_amended (db : DB) (userId : Nat) (req : SendReq)
    (oracle : AIOracle) (today : String) (L : Int)
    (hL : maxMessagesSetting db = some L) :
    (validateSend req = true →
      ∀ r, dailyUsageRow db userId today = some r →
      L ≤ (r.messages_sent : Int) →
      sendHandler db userId req oracle today
        = { result := .tooMany, db := db, events := [.validate, .quotaCheck],
            histRows := none }
      ∧ httpStatus .tooMany = 429
      ∧ httpError .tooMany = some "Daily message limit reached")
    ∧ (1 ≤ L →
      (∀ r, dailyUsageRow db userId today = some r →
        (r.messages_sent : Int) ≤ L) →
      ∀ r2, dailyUsageRow (sendHandler db userId req oracle today).db userId
          today = some r2 → (r2.messages_sent : Int) ≤ L) := by
  constructor
  · intro hv r hr hge
    have hq : quotaExceeded db userId today = true := by
      simp [quotaExceeded, hr, hL, hge]
    exact ⟨by simp [sendHandler, hv, hq], rfl, rfl⟩
  · intro hL1 hbound r2 hr2
    rcases sendHandler_usage_cases db userId req oracle today with hsame |
      ⟨hq, tk, c, hup⟩
    · unfold dailyUsageRow at hr2
      rw [hsame] at hr2
      exact hbound r2 hr2
    · unfold dailyUsageRow at hr2
      rw [hup] at hr2
      rcases hfind : findUsage db.user_usage userId today with _ | r
      · rw [findUsage_upsert_none _ _ _ _ _ hfind] at hr2
        have hr2e : r2 = { user_id := userId, date := today,
                           messages_sent := 1, tokens_used := tk,
                           cost := c } := by
          exact (Option.some.inj hr2).symm
        rw [hr2e]
        simpa using hL1
      · have hlt : ¬(L ≤ (r.messages_sent : Int)) := by
          have hq2 := hq
          unfold quotaExceeded dailyUsageRow at hq2
          rw [hfind, hL] at hq2
          simpa using hq2
        rw [findUsage_upsert_some _ _ _ _ _ _ hfind] at hr2
        have hr2e : r2 = { r with
                           messages_sent := r.messages_sent + 1,
                           tokens_used := r.tokens_used + tk,
                           cost := r.cost + c } := by
          exact (Option.some.inj hr2).symm
        rw [hr2e]
        push_cast
        omega

def c2wdb : DB :=
  { users := [⟨1, "a@ex.com", "Alice", "user", true⟩], conversations := [],
    messages := [], user_usage := [⟨1, "2026-02-03", 5, 0, 0⟩],
    settings := [("max_messages_per_day", "5")],
    api_keys := [⟨"google", "gk", true⟩],
    nextConvId := 1, nextMsgId := 1, clock := 0 }

def c2wreq : SendReq :=
  { message := "hi", conversationId := none, provider := "google",
    model := "gemini-pro" }

def c2woracle : AIOracle := { fails := false, text := "resp", totalTokens := none }

/-- C2 witness: the amended theorem applied at a store whose limit is 5 and
whose user already sent 5 messages today — the request is answered 429 with
nothing written, and the day's count stays at most 5. -/
theorem c2_quota_amended_witness :
    (sendHandler c2wdb 1 c2wreq c2woracle "2026-02-03"
      = { result := .tooMany, db := c2wdb, events := [.validate, .quotaCheck],
          histRows := none }
     ∧ httpStatus .tooMany = 429
     ∧ httpError .tooMany = some "Daily message limit reached")
    ∧ (∀ r2, dailyUsageRow (sendHandler c2wdb 1 c2wreq c2woracle
        "2026-02-03").db 1 "2026-02-03" = some r2 →
        (r2.messages_sent : Int) ≤ 5) := by
  constructor
  · exact (c2_quota_amended c2wdb 1 c2wreq c2woracle "2026-02-03" 5
      (by decide)).1 (by decide) ⟨1, "2026-02-03", 5, 0, 0⟩ (by decide)
      (by decide)
  · refine (c2_quota_amended c2wdb 1 c2wreq c2woracle "2026-02-03" 5
      (by decide)).2 (by decide) ?_
    intro r hr
    have hx : dailyUsageRow c2wdb 1 "2026-02-03"
        = some (⟨1, "2026-02-03", 5, 0, 0⟩ : UsageRow) := by decide
    rw [hx] at hr
    rw [← Option.some.inj hr]
    decide

def c1db : DB :=
  { users := [⟨1, "a@ex.com", "Alice", "user", true⟩,
              ⟨2, "b@ex.com", "Bob", "user", true⟩],
    conversations := [⟨10, 2, "Bobs conversation", "google", "gemini-pro", 0, 0⟩],
    messages := [], user_usage := [],
    settings := [("max_messages_per_day", "100")],
    api_keys := [⟨"google", "gk", true⟩],
    nextConvId := 11, nextMsgId := 1, clock := 5 }

def c1req : SendReq :=
  { message := "intruding message", conversationId := some 10,
    provider := "google", model := "gemini-pro" }

def c1oracle : AIOracle := { fails := false, text := "reply", totalTokens := none }

/-- C1, the failing input: conversation 10 belongs to user 2, yet user 1's
send naming `conversationId = 10` succeeds and stores both the user and the
assistant message in user 2's conversation — `POST /send` never checks the
supplied conversation's owner, while the read and delete endpoints on the
very same store do refuse user 1 (404). -/
theorem c1_send_ownership_bug :
    c1db.conversations.map (fun cv => (cv.id, cv.user_id)) = [(10, 2)]
    ∧ (sendHandler c1db 1 c1req c1oracle "2026-02-03").result
        = .ok "reply" 10 0 0
    ∧ (sendHandler c1db 1 c1req c1oracle "2026-02-03").db.messages.map
        (fun m => (m.conversation_id, m.role))
        = [(10, "user"), (10, "assistant")]
    ∧ getConversationMessages c1db 1 10 = none
    ∧ (deleteConversation c1db 1 10).1 = false
    ∧ (1 : Nat) ≠ 2 := by
  decide

/-- The three usage-table consequences of the additive upsert, given the
uniqueness invariant. -/
theorem usage_upsert_facts (db : DB) (userId : Nat) (today : String)
    (out : SendOut) (tk : Nat) (c : Rat)
    (huniq : usageUnique db.user_usage)
    (hu : out.db.user_usage = upsertUsageRows db.user_usage userId today tk c) :
    (dailyUsageRow db userId today = none →
      dailyUsageRow out.db userId today
        = some { user_id := userId, date := today, messages_sent := 1,
                 tokens_used := tk, cost := c })
    ∧ (∀ r, dailyUsageRow db userId today = some r →
      dailyUsageRow out.db userId today
        = some { r with
                 messages_sent := r.messages_sent + 1,
                 tokens_used := r.tokens_used + tk,
                 cost := r.cost + c })
    ∧ usageUnique out.db.user_usage := by
  unfold dailyUsageRow
  rw [hu]
  exact ⟨fun h0 => findUsage_upsert_none _ _ _ _ _ h0,
    fun r hr => findUsage_upsert_some _ _ _ _ _ _ hr,
    usageUnique_upsert _ _ _ _ _ huniq⟩

/-- C3: a successful send applies exactly one additive upsert to the
requester's `(user_id, today)` usage row — `messages_sent` grows by 1 and
`tokens_used`/`cost` by exactly the stored assistant message's tokens and
cost (a fresh row `(1, tk, c)` appears when none existed) — and the
`UNIQUE(user_id, date)` invariant is preserved. -/
theorem c3_usage_upsert (db : DB) (userId : Nat) (req : SendReq)
    (oracle : AIOracle) (today : String)
    (hv : validateSend req = true)
    (hq : quotaExceeded db userId today = false)
    (hk : (activeApiKey db.api_keys req.provider).isSome = true)
    (hf : oracle.fails = false)
    (hconv : ∀ cid, req.conversationId = some cid →
      db.conversations.any (fun cv => cv.id == cid) = true)
    (huniq : usageUnique db.user_usage) :
    ∃ tk c cid,
      (sendHandler db userId req oracle today).result = .ok oracle.text cid tk c
      ∧ (sendHandler db userId req oracle today).db.user_usage
          = upsertUsageRows db.user_usage userId today tk c
      ∧ (∃ m, (sendHandler db userId req oracle today).db.messages.getLast?
          = some m ∧ m.role = "assistant" ∧ m.content = oracle.text
          ∧ m.tokens_used = tk ∧ m.cost = c)
      ∧ (dailyUsageRow db userId today = none →
          dailyUsageRow (sendHandler db userId req oracle today).db userId today
            = some { user_id := userId, date := today, messages_sent := 1,
                     tokens_used := tk, cost := c })
      ∧ (∀ r, dailyUsageRow db userId today = some r →
          dailyUsageRow (sendHandler db userId req oracle today).db userId today
            = some { r with
                     messages_sent := r.messages_sent + 1,
                     tokens_used := r.tokens_used + tk,
                     cost := r.cost + c })
      ∧ usageUnique (sendHandler db userId req oracle today).db.user_usage := by
  obtain ⟨k, hk2⟩ := Option.isSome_iff_exists.mp hk
  rcases validate_provider hv with hpv | hpv <;>
    rcases hcv : req.conversationId with _ | cid
  · rw [hpv] at hk2
    have hu : (sendHandler db userId req oracle today).db.user_usage
        = upsertUsageRows db.user_usage userId today 0 0 := by
      simp [sendHandler, stageConv, newConversation, insertMessage, finishSend,
        callGoogleAI, touchConversation, upsertUsage, hv, hq, hpv,
        hcv, hk2, hf]
    obtain ⟨h1, h2, h3⟩ := usage_upsert_facts db userId today _ 0 0 huniq hu
    exact ⟨0, 0, db.nextConvId, by
      simp [sendHandler, stageConv, newConversation, insertMessage, finishSend,
        callGoogleAI, touchConversation, upsertUsage, hv, hq, hpv,
        hcv, hk2, hf], hu, by
      simp [sendHandler, stageConv, newConversation, insertMessage, finishSend,
        callGoogleAI, touchConversation, upsertUsage, hv, hq, hpv,
        hcv, hk2, hf, List.getLast?_concat], h1, h2, h3⟩
  · rw [hpv] at hk2
    have hex := hconv cid hcv
    have hu : (sendHandler db userId req oracle today).db.user_usage
        = upsertUsageRows db.user_usage userId today 0 0 := by
      simp [sendHandler, stageConv, insertMessage, finishSend, callGoogleAI,
        touchConversation, upsertUsage, hv, hq, hpv, hcv, hex,
        hk2, hf]
    obtain ⟨h1, h2, h3⟩ := usage_upsert_facts db userId today _ 0 0 huniq hu
    exact ⟨0, 0, cid, by
      simp [sendHandler, stageConv, insertMessage, finishSend, callGoogleAI,
        touchConversation, upsertUsage, hv, hq, hpv, hcv, hex,
        hk2, hf], hu, by
      simp [sendHandler, stageConv, insertMessage, finishSend, callGoogleAI,
        touchConversation, upsertUsage, hv, hq, hpv, hcv, hex,
        hk2, hf, List.getLast?_concat], h1, h2, h3⟩
  · rw [hpv] at hk2
    have hu : (sendHandler db userId req oracle today).db.user_usage
        = upsertUsageRows db.user_usage userId today (oracle.totalTokens.getD 0)
            (calculateCost req.model (oracle.totalTokens.getD 0)) := by
      simp [sendHandler, stageConv, newConversation, insertMessage, finishSend,
        callOpenRouter, touchConversation, upsertUsage, hv, hq,
        hpv, hcv, hk2, hf]
    obtain ⟨h1, h2, h3⟩ := usage_upsert_facts db userId today _ _ _ huniq hu
    exact ⟨oracle.totalTokens.getD 0,
      calculateCost req.model (oracle.totalTokens.getD 0), db.nextConvId, by
      simp [sendHandler, stageConv, newConversation, insertMessage, finishSend,
        callOpenRouter, touchConversation, upsertUsage, hv, hq,
        hpv, hcv, hk2, hf], hu, by
      simp [sendHandler, stageConv, newConversation, insertMessage, finishSend,
        callOpenRouter, touchConversation, upsertUsage, hv, hq,
        hpv, hcv, hk2, hf, List.getLast?_concat], h1, h2, h3⟩
  · rw [hpv] at hk2
    have hex := hconv cid hcv
    have hu : (sendHandler db userId req oracle today).db.user_usage
        = upsertUsageRows db.user_usage userId today (oracle.totalTokens.getD 0)
            (calculateCost req.model (oracle.totalTokens.getD 0)) := by
      simp [sendHandler, stageConv, insertMessage, finishSend, callOpenRouter,
        touchConversation, upsertUsage, hv, hq, hpv, hcv, hex,
        hk2, hf]
    obtain ⟨h1, h2, h3⟩ := usage_upsert_facts db userId today _ _ _ huniq hu
    exact ⟨oracle.totalTokens.getD 0,
      calculateCost req.model (oracle.totalTokens.getD 0), cid, by
      simp [sendHandler, stageConv, insertMessage, finishSend, callOpenRouter,
        touchConversation, upsertUsage, hv, hq, hpv, hcv, hex,
        hk2, hf], hu, by
      simp [sendHandler, stageConv, insertMessage, finishSend, callOpenRouter,
        touchConversation, upsertUsage, hv, hq, hpv, hcv, hex,
        hk2, hf, List.getLast?_concat], h1, h2, h3⟩

def c3wdb : DB :=
  { users := [⟨1, "a@ex.com", "Alice", "user", true⟩], conversations := [],
    messages := [], user_usage := [⟨1, "2026-02-03", 2, 3, 0⟩],
    settings := [("max_messages_per_day", "100")],
    api_keys := [⟨"google", "gk", true⟩],
    nextConvId := 1, nextMsgId := 1, clock := 0 }

def c3wreq : SendReq :=
  { message := "hi", conversationId := none, provider := "google",
    model := "gemini-pro" }

def c3woracle : AIOracle := { fails := false, text := "resp", totalTokens := none }

/-- C3 witness: the theorem applied to a concrete store already holding the
day's row `(1, 2026-02-03, 2 messages, 3 tokens)`. -/
theorem c3_usage_upsert_witness :
    ∃ tk c cid,
      (sendHandler c3wdb 1 c3wreq c3woracle "2026-02-03").result
        = .ok c3woracle.text cid tk c
      ∧ (sendHandler c3wdb 1 c3wreq c3woracle "2026-02-03").db.user_usage
          = upsertUsageRows c3wdb.user_usage 1 "2026-02-03" tk c
      ∧ (∃ m, (sendHandler c3wdb 1 c3wreq c3woracle
            "2026-02-03").db.messages.getLast?
          = some m ∧ m.role = "assistant" ∧ m.content = c3woracle.text
          ∧ m.tokens_used = tk ∧ m.cost = c)
      ∧ (dailyUsageRow c3wdb 1 "2026-02-03" = none →
          dailyUsageRow (sendHandler c3wdb 1 c3wreq c3woracle
              "2026-02-03").db 1 "2026-02-03"
            = some { user_id := 1, date := "2026-02-03", messages_sent := 1,
                     tokens_used := tk, cost := c })
      ∧ (∀ r, dailyUsageRow c3wdb 1 "2026-02-03" = some r →
          dailyUsageRow (sendHandler c3wdb 1 c3wreq c3woracle
              "2026-02-03").db 1 "2026-02-03"
            = some { r with
                     messages_sent := r.messages_sent + 1,
                     tokens_used := r.tokens_used + tk,
                     cost := r.cost + c })
      ∧ usageUnique (sendHandler c3wdb 1 c3wreq c3woracle
          "2026-02-03").db.user_usage :=
  c3_usage_upsert c3wdb 1 c3wreq c3woracle "2026-02-03" (by decide) (by decide)
    (by decide) (by decide) (fun cid h => nomatch h) (by simp [usageUnique, c3wdb])

/-- After the conditional `updated_at := x` map, every conversation with the
touched id carries an `updated_at` above any earlier bound `y < x`. -/
theorem touch_updated_at_lt (convs : List Conversation) (cid x y : Nat)
    (hxy : y < x) :
    ∀ cv ∈ convs.map (fun cv => if cv.id == cid
        then { cv with updated_at := x } else cv),
      cv.id = cid → y < cv.updated_at := by
  intro cv hcv _
  rcases List.mem_map.mp hcv with ⟨cv0, hcv0, rfl⟩
  by_cases h : (cv0.id == cid) = true
  · simpa [h] using hxy
  · rename_i hid
    rw [if_neg h] at hid
    exact absurd (by simpa using hid) (by simpa using h)

/-- C5: a successful send performs, in exactly this order: validation, the
quota check, creation of the conversation when no id was supplied (titled
with the first 50 characters of the message followed by `'...'`), the user
message insert, the history read, the dispatch to the adapter selected by
`provider`, the assistant message insert with its tokens and cost, the
`updated_at` bump of the conversation, the additive usage upsert, and the
JSON response carrying the assistant text, the conversation id, tokensUsed
and cost. -/
theorem c5_send_pipeline (db : DB) (userId : Nat) (req : SendReq)
    (oracle : AIOracle) (today : String)
    (hv : validateSend req = true)
    (hq : quotaExceeded db userId today = false)
    (hk : (activeApiKey db.api_keys req.provider).isSome = true)
    (hf : oracle.fails = false)
    (hconv : ∀ cid, req.conversationId = some cid →
      db.conversations.any (fun cv => cv.id == cid) = true) :
    ∃ tk c cid,
      (sendHandler db userId req oracle today).result = .ok oracle.text cid tk c
      ∧ (sendHandler db userId req oracle today).events
          = [.validate, .quotaCheck]
            ++ (if req.conversationId = none then [.createConv db.nextConvId]
                else [])
            ++ [.insertUserMsg, .fetchHistory, .dispatch req.provider,
                .insertAssistantMsg, .touchConv, .upsertUsageEv, .respond]
      ∧ cid = (match req.conversationId with
               | none => db.nextConvId
               | some i => i)
      ∧ (req.conversationId = none →
          ∃ cv, cv ∈ (sendHandler db userId req oracle today).db.conversations
            ∧ cv.id = db.nextConvId ∧ cv.user_id = userId
            ∧ cv.title = req.message.take 50 ++ "..."
            ∧ cv.provider = req.provider ∧ cv.model = req.model)
      ∧ (∃ t1 t2, (sendHandler db userId req oracle today).db.messages
          = db.messages
            ++ [{ id := db.nextMsgId, conversation_id := cid, role := "user",
                  content := req.message, tokens_used := 0, cost := 0,
                  created_at := t1 },
                { id := db.nextMsgId + 1, conversation_id := cid,
                  role := "assistant", content := oracle.text,
                  tokens_used := tk, cost := c, created_at := t2 }]
          ∧ t1 < t2)
      ∧ (∀ cv ∈ (sendHandler db userId req oracle today).db.conversations,
          cv.id = cid → db.clock < cv.updated_at)
      ∧ (sendHandler db userId req oracle today).db.user_usage
          = upsertUsageRows db.user_usage userId today tk c
      ∧ (req.provider = "google" → tk = 0 ∧ c = 0)
      ∧ (req.provider = "openrouter" →
          tk = oracle.totalTokens.getD 0 ∧ c = calculateCost req.model tk) := by
  obtain ⟨k, hk2⟩ := Option.isSome_iff_exists.mp hk
  rcases validate_provider hv with hpv | hpv <;>
    rcases hcv : req.conversationId with _ | cid
  · -- google, fresh conversation
    rw [hpv] at hk2
    have hconvs : (sendHandler db userId req oracle today).db.conversations
        = (db.conversations ++
            [({ id := db.nextConvId, user_id := userId,
                title := req.message.take 50 ++ "...",
                provider := req.provider, model := req.model,
                created_at := db.clock,
                updated_at := db.clock } : Conversation)]).map
            (fun cv => if cv.id == db.nextConvId
              then { cv with updated_at := db.clock + 1 + 1 + 1 } else cv) := by
      simp [sendHandler, stageConv, newConversation, insertMessage, finishSend,
        callGoogleAI, touchConversation, upsertUsage, hv, hq, hpv, hcv, hk2, hf]
    refine ⟨0, 0, db.nextConvId, ?_, ?_, by simp [hcv], ?_, ?_, ?_, ?_,
      fun _ => ⟨rfl, rfl⟩, fun hp2 => absurd (hpv.symm.trans hp2) (by decide)⟩
    · simp [sendHandler, stageConv, newConversation, insertMessage, finishSend,
        callGoogleAI, touchConversation, upsertUsage, hv, hq, hpv, hcv, hk2, hf]
    · simp [sendHandler, stageConv, newConversation, insertMessage, finishSend,
        callGoogleAI, touchConversation, upsertUsage, hv, hq, hpv, hcv, hk2, hf]
    · intro _
      rw [hconvs]
      refine ⟨{ id := db.nextConvId, user_id := userId,
                title := req.message.take 50 ++ "...",
                provider := req.provider, model := req.model,
                created_at := db.clock, updated_at := db.clock + 1 + 1 + 1 },
        List.mem_map.mpr ⟨{ id := db.nextConvId, user_id := userId,
                             title := req.message.take 50 ++ "...",
                             provider := req.provider, model := req.model,
                             created_at := db.clock,
                             updated_at := db.clock },
          List.mem_append_right _ (by simp), by simp⟩,
        rfl, rfl, rfl, rfl, rfl⟩
    · refine ⟨db.clock + 1, db.clock + 1 + 1, ?_, by omega⟩
      simp [sendHandler, stageConv, newConversation, insertMessage, finishSend,
        callGoogleAI, touchConversation, upsertUsage, hv, hq, hpv, hcv, hk2, hf]
    · rw [hconvs]
      exact touch_updated_at_lt _ _ _ _ (by omega)
    · simp [sendHandler, stageConv, newConversation, insertMessage, finishSend,
        callGoogleAI, touchConversation, upsertUsage, hv, hq, hpv, hcv, hk2, hf]
  · -- google, supplied conversation id
    rw [hpv] at hk2
    have hex := hconv cid hcv
    have hconvs : (sendHandler db userId req oracle today).db.conversations
        = db.conversations.map
            (fun cv => if cv.id == cid
              then { cv with updated_at := db.clock + 1 + 1 } else cv) := by
      simp [sendHandler, stageConv, insertMessage, finishSend, callGoogleAI,
        touchConversation, upsertUsage, hv, hq, hpv, hcv, hex, hk2, hf]
    refine ⟨0, 0, cid, ?_, ?_, by simp [hcv], ?_, ?_, ?_, ?_, ?_, ?_⟩
    · simp [sendHandler, stageConv, insertMessage, finishSend, callGoogleAI,
        touchConversation, upsertUsage, hv, hq, hpv, hcv, hex, hk2, hf]
    · simp [sendHandler, stageConv, insertMessage, finishSend, callGoogleAI,
        touchConversation, upsertUsage, hv, hq, hpv, hcv, hex, hk2, hf]
    · intro h
      exact absurd h (by simp)
    · refine ⟨db.clock, db.clock + 1, ?_, by omega⟩
      simp [sendHandler, stageConv, insertMessage, finishSend, callGoogleAI,
        touchConversation, upsertUsage, hv, hq, hpv, hcv, hex, hk2, hf]
    · rw [hconvs]
      exact touch_updated_at_lt _ _ _ _ (by omega)
    · simp [sendHandler, stageConv, insertMessage, finishSend, callGoogleAI,
        touchConversation, upsertUsage, hv, hq, hpv, hcv, hex, hk2, hf]
    · intro _
      exact ⟨rfl, rfl⟩
    · intro hp2
      exact absurd (hpv.symm.trans hp2) (by decide)
  · -- openrouter, fresh conversation
    rw [hpv] at hk2
    have hconvs : (sendHandler db userId req oracle today).db.conversations
        = (db.conversations ++
            [({ id := db.nextConvId, user_id := userId,
                title := req.message.take 50 ++ "...",
                provider := req.provider, model := req.model,
                created_at := db.clock,
                updated_at := db.clock } : Conversation)]).map
            (fun cv => if cv.id == db.nextConvId
              then { cv with updated_at := db.clock + 1 + 1 + 1 } else cv) := by
      simp [sendHandler, stageConv, newConversation, insertMessage, finishSend,
        callOpenRouter, touchConversation, upsertUsage, hv, hq, hpv, hcv, hk2, hf]
    refine ⟨oracle.totalTokens.getD 0,
      calculateCost req.model (oracle.totalTokens.getD 0), db.nextConvId,
      ?_, ?_, by simp [hcv], ?_, ?_, ?_, ?_,
      fun hp2 => absurd (hpv.symm.trans hp2) (by decide), fun _ => ⟨rfl, rfl⟩⟩
    · simp [sendHandler, stageConv, newConversation, insertMessage, finishSend,
        callOpenRouter, touchConversation, upsertUsage, hv, hq, hpv, hcv, hk2, hf]
    · simp [sendHandler, stageConv, newConversation, insertMessage, finishSend,
        callOpenRouter, touchConversation, upsertUsage, hv, hq, hpv, hcv, hk2, hf]
    · intro _
      rw [hconvs]
      refine ⟨{ id := db.nextConvId, user_id := userId,
                title := req.message.take 50 ++ "...",
                provider := req.provider, model := req.model,
                created_at := db.clock, updated_at := db.clock + 1 + 1 + 1 },
        List.mem_map.mpr ⟨{ id := db.nextConvId, user_id := userId,
                             title := req.message.take 50 ++ "...",
                             provider := req.provider, model := req.model,
                             created_at := db.clock,
                             updated_at := db.clock },
          List.mem_append_right _ (by simp), by simp⟩,
        rfl, rfl, rfl, rfl, rfl⟩
    · refine ⟨db.clock + 1, db.clock + 1 + 1, ?_, by omega⟩
      simp [sendHandler, stageConv, newConversation, insertMessage, finishSend,
        callOpenRouter, touchConversation, upsertUsage, hv, hq, hpv, hcv, hk2, hf]
    · rw [hconvs]
      exact touch_updated_at_lt _ _ _ _ (by omega)
    · simp [sendHandler, stageConv, newConversation, insertMessage, finishSend,
        callOpenRouter, touchConversation, upsertUsage, hv, hq, hpv, hcv, hk2, hf]
  · -- openrouter, supplied conversation id
    rw [hpv] at hk2
    have hex := hconv cid hcv
    have hconvs : (sendHandler db userId req oracle today).db.conversations
        = db.conversations.map
            (fun cv => if cv.id == cid
              then { cv with updated_at := db.clock + 1 + 1 } else cv) := by
      simp [sendHandler, stageConv, insertMessage, finishSend, callOpenRouter,
        touchConversation, upsertUsage, hv, hq, hpv, hcv, hex, hk2, hf]
    refine ⟨oracle.totalTokens.getD 0,
      calculateCost req.model (oracle.totalTokens.getD 0), cid,
      ?_, ?_, by simp [hcv], ?_, ?_, ?_, ?_, ?_, ?_⟩
    · simp [sendHandler, stageConv, insertMessage, finishSend, callOpenRouter,
        touchConversation, upsertUsage, hv, hq, hpv, hcv, hex, hk2, hf]
    · simp [sendHandler, stageConv, insertMessage, finishSend, callOpenRouter,
        touchConversation, upsertUsage, hv, hq, hpv, hcv, hex, hk2, hf]
    · intro h
      exact absurd h (by simp)
    · refine ⟨db.clock, db.clock + 1, ?_, by omega⟩
      simp [sendHandler, stageConv, insertMessage, finishSend, callOpenRouter,
        touchConversation, upsertUsage, hv, hq, hpv, hcv, hex, hk2, hf]
    · rw [hconvs]
      exact touch_updated_at_lt _ _ _ _ (by omega)
    · simp [sendHandler, stageConv, insertMessage, finishSend, callOpenRouter,
        touchConversation, upsertUsage, hv, hq, hpv, hcv, hex, hk2, hf]
    · intro hp2
      exact absurd (hpv.symm.trans hp2) (by decide)
    · intro _
      exact ⟨rfl, rfl⟩

def c5wdb : DB :=
  { users := [⟨1, "a@ex.com", "Alice", "user", true⟩], conversations := [],
    messages := [], user_usage := [],
    settings := [("max_messages_per_day", "100")],
    api_keys := [⟨"openrouter", "ok", true⟩],
    nextConvId := 1, nextMsgId := 1, clock := 0 }

def c5wreq : SendReq :=
  { message := "hello pipeline", conversationId := none,
    provider := "openrouter", model := "openai/gpt-4" }

def c5woracle : AIOracle :=
  { fails := false, text := "resp", totalTokens := some 7 }

/-- C5 witness: the pipeline theorem applied to a concrete OpenRouter send
that creates a fresh conversation. -/
theorem c5_send_pipeline_witness :
    ∃ tk c cid,
      (sendHandler c5wdb 1 c5wreq c5woracle "2026-02-03").result
        = .ok c5woracle.text cid tk c
      ∧ (sendHandler c5wdb 1 c5wreq c5woracle "2026-02-03").events
          = [.validate, .quotaCheck]
            ++ (if c5wreq.conversationId = none then [.createConv c5wdb.nextConvId]
                else [])
            ++ [.insertUserMsg, .fetchHistory, .dispatch c5wreq.provider,
                .insertAssistantMsg, .touchConv, .upsertUsageEv, .respond]
      ∧ cid = (match c5wreq.conversationId with
               | none => c5wdb.nextConvId
               | some i => i)
      ∧ (c5wreq.conversationId = none →
          ∃ cv, cv ∈ (sendHandler c5wdb 1 c5wreq c5woracle
              "2026-02-03").db.conversations
            ∧ cv.id = c5wdb.nextConvId ∧ cv.user_id = 1
            ∧ cv.title = c5wreq.message.take 50 ++ "..."
            ∧ cv.provider = c5wreq.provider ∧ cv.model = c5wreq.model)
      ∧ (∃ t1 t2, (sendHandler c5wdb 1 c5wreq c5woracle "2026-02-03").db.messages
          = c5wdb.messages
            ++ [{ id := c5wdb.nextMsgId, conversation_id := cid, role := "user",
                  content := c5wreq.message, tokens_used := 0, cost := 0,
                  created_at := t1 },
                { id := c5wdb.nextMsgId + 1, conversation_id := cid,
                  role := "assistant", content := c5woracle.text,
                  tokens_used := tk, cost := c, created_at := t2 }]
          ∧ t1 < t2)
      ∧ (∀ cv ∈ (sendHandler c5wdb 1 c5wreq c5woracle "2026-02-03").db.conversations,
          cv.id = cid → c5wdb.clock < cv.updated_at)
      ∧ (sendHandler c5wdb 1 c5wreq c5woracle "2026-02-03").db.user_usage
          = upsertUsageRows c5wdb.user_usage 1 "2026-02-03" tk c
      ∧ (c5wreq.provider = "google" → tk = 0 ∧ c = 0)
      ∧ (c5wreq.provider = "openrouter" →
          tk = c5woracle.totalTokens.getD 0
          ∧ c = calculateCost c5wreq.model tk) :=
  c5_send_pipeline c5wdb 1 c5wreq c5woracle "2026-02-03" (by decide) (by decide)
    (by decide) (by decide) (fun cid h => nomatch h)

def c6db : DB :=
  { users := [⟨1, "a@ex.com", "Alice", "user", true⟩], conversations := [],
    messages := [], user_usage := [],
    settings := [("max_messages_per_day", "100")],
    api_keys := [⟨"google", "gk", true⟩],
    nextConvId := 1, nextMsgId := 1, clock := 0 }

def c6req : SendReq :=
  { message := "question", conversationId := none, provider := "google",
    model := "gemini-pro" }

def c6oracle : AIOracle :=
  { fails := false, text := "a long completion", totalTokens := some 100 }

/-- C6 counterexample: on a Google send whose provider reply reports 100
total tokens, the adapter returns only the text — no token count, no cost —
so the handler stores and returns `tokensUsed = 0`, `cost = 0`: neither is
the completion's token count nor a cost derived from it
(`calculateCost "gemini-pro" 100 = 1/10 ≠ 0`). -/
theorem c6_counterexample :
    c6oracle.totalTokens = some 100
    ∧ callGoogleAI c6db.api_keys c6oracle [] "gemini-pro" = some c6oracle.text
    ∧ (sendHandler c6db 1 c6req c6oracle "2026-02-03").result
        = .ok c6oracle.text 1 0 0
    ∧ (sendHandler c6db 1 c6req c6oracle "2026-02-03").db.messages.map
        (fun m => (m.tokens_used, m.cost)) = [(0, 0), (0, 0)]
    ∧ (0 : Nat) ≠ 100
    ∧ calculateCost "gemini-pro" 100 ≠ 0 := by
  refine ⟨rfl, by decide, by decide, by decide, by decide, ?_⟩
  unfold calculateCost
  rw [if_neg (by decide), if_neg (by decide), if_neg (by decide),
    if_neg (by decide)]
  norm_num

/-- C6 (amended): only the OpenRouter adapter computes a per-token cost
estimate — an openrouter send stores and returns `usage.total_tokens`
(defaulting to 0 when absent) and `calculateCost(model, that count)`, while
a google send always stores and returns `tokensUsed = 0` and `cost = 0`,
whatever the completion. -/
theorem c6_cost_amended (db : DB) (userId : Nat) (req : SendReq)
    (oracle : AIOracle) (today : String)
    (hv : validateSend req = true)
    (hq : quotaExceeded db userId today = false)
    (hk : (activeApiKey db.api_keys req.provider).isSome = true)
    (hf : oracle.fails = false)
    (hconv : ∀ cid, req.conversationId = some cid →
      db.conversations.any (fun cv => cv.id == cid) = true) :
    (req.provider = "openrouter" → ∃ cid,
      (sendHandler db userId req oracle today).result
        = .ok oracle.text cid (oracle.totalTokens.getD 0)
            (calculateCost req.model (oracle.totalTokens.getD 0))
      ∧ ∃ m, (sendHandler db userId req oracle today).db.messages.getLast?
          = some m ∧ m.role = "assistant"
          ∧ m.tokens_used = oracle.totalTokens.getD 0
          ∧ m.cost = calculateCost req.model (oracle.totalTokens.getD 0))
    ∧ (req.provider = "google" → ∃ cid,
      (sendHandler db userId req oracle today).result = .ok oracle.text cid 0 0
      ∧ ∃ m, (sendHandler db userId req oracle today).db.messages.getLast?
          = some m ∧ m.role = "assistant"
          ∧ m.tokens_used = 0 ∧ m.cost = 0) := by
  obtain ⟨k, hk2⟩ := Option.isSome_iff_exists.mp hk
  constructor
  · intro hpv
    rw [hpv] at hk2
    rcases hcv : req.conversationId with _ | cid
    · exact ⟨db.nextConvId, by
        simp [sendHandler, stageConv, newConversation, insertMessage,
          finishSend, callOpenRouter, touchConversation, upsertUsage, hv, hq,
          hpv, hcv, hk2, hf], by
        simp [sendHandler, stageConv, newConversation, insertMessage,
          finishSend, callOpenRouter, touchConversation, upsertUsage, hv, hq,
          hpv, hcv, hk2, hf, List.getLast?_concat]⟩
    · have hex := hconv cid hcv
      exact ⟨cid, by
        simp [sendHandler, stageConv, insertMessage, finishSend,
          callOpenRouter, touchConversation, upsertUsage, hv, hq, hpv, hcv,
          hex, hk2, hf], by
        simp [sendHandler, stageConv, insertMessage, finishSend,
          callOpenRouter, touchConversation, upsertUsage, hv, hq, hpv, hcv,
          hex, hk2, hf, List.getLast?_concat]⟩
  · intro hpv
    rw [hpv] at hk2
    rcases hcv : req.conversationId with _ | cid
    · exact ⟨db.nextConvId, by
        simp [sendHandler, stageConv, newConversation, insertMessage,
          finishSend, callGoogleAI, touchConversation, upsertUsage, hv, hq,
          hpv, hcv, hk2, hf], by
        simp [sendHandler, stageConv, newConversation, insertMessage,
          finishSend, callGoogleAI, touchConversation, upsertUsage, hv, hq,
          hpv, hcv, hk2, hf, List.getLast?_concat]⟩
    · have hex := hconv cid hcv
      exact ⟨cid, by
        simp [sendHandler, stageConv, insertMessage, finishSend, callGoogleAI,
          touchConversation, upsertUsage, hv, hq, hpv, hcv, hex, hk2, hf], by
        simp [sendHandler, stageConv, insertMessage, finishSend, callGoogleAI,
          touchConversation, upsertUsage, hv, hq, hpv, hcv, hex, hk2, hf,
          List.getLast?_concat]⟩

def c6wdb : DB :=
  { users := [⟨1, "a@ex.com", "Alice", "user", true⟩], conversations := [],
    messages := [], user_usage := [],
    settings := [("max_messages_per_day", "100")],
    api_keys := [⟨"openrouter", "ok", true⟩],
    nextConvId := 1, nextMsgId := 1, clock := 0 }

def c6wreq : SendReq :=
  { message := "question", conversationId := none, provider := "openrouter",
    model := "openai/gpt-4" }

/-- C6 witness: the amended theorem applied to a concrete OpenRouter send
reporting 100 tokens and to the concrete Google send of the counterexample
store. -/
theorem c6_cost_amended_witness :
    (∃ cid, (sendHandler c6wdb 1 c6wreq c6oracle "2026-02-03").result
        = .ok c6oracle.text cid (c6oracle.totalTokens.getD 0)
            (calculateCost c6wreq.model (c6oracle.totalTokens.getD 0))
      ∧ ∃ m, (sendHandler c6wdb 1 c6wreq c6oracle
            "2026-02-03").db.messages.getLast?
          = some m ∧ m.role = "assistant"
          ∧ m.tokens_used = c6oracle.totalTokens.getD 0
          ∧ m.cost = calculateCost c6wreq.model (c6oracle.totalTokens.getD 0))
    ∧ (∃ cid, (sendHandler c6db 1 c6req c6oracle "2026-02-03").result
        = .ok c6oracle.text cid 0 0
      ∧ ∃ m, (sendHandler c6db 1 c6req c6oracle
            "2026-02-03").db.messages.getLast?
          = some m ∧ m.role = "assistant" ∧ m.tokens_used = 0 ∧ m.cost = 0) :=
  ⟨(c6_cost_amended c6wdb 1 c6wreq c6oracle "2026-02-03" (by decide) (by decide)
      (by decide) (by decide) (fun cid h => nomatch h)).1 rfl,
   (c6_cost_amended c6db 1 c6req c6oracle "2026-02-03" (by decide) (by decide)
      (by decide) (by decide) (fun cid h => nomatch h)).2 rfl⟩

theorem callGoogleAI_fails (keys : List ApiKey) (oracle : AIOracle)
    (msgs : List (String × String)) (model : String)
    (h : oracle.fails = true) : callGoogleAI keys oracle msgs model = none := by
  unfold callGoogleAI
  cases activeApiKey keys "google" <;> simp [h]

theorem callOpenRouter_fails (keys : List ApiKey) (oracle : AIOracle)
    (msgs : List (String × String)) (model : String)
    (h : oracle.fails = true) : callOpenRouter keys oracle msgs model = none := by
  unfold callOpenRouter
  cases activeApiKey keys "openrouter" <;> simp [h]

/-- C9: when the selected adapter throws, the handler answers 500
`'AI service temporarily unavailable'`, the user message inserted before the
dispatch (and the conversation freshly created when no id was supplied, its
`updated_at` still its creation stamp) stays persisted, no assistant message
is stored, a supplied conversation is left entirely untouched (so its
`updated_at` is not bumped), and the day's usage counters are unchanged — a
failed send consumes no quota but leaves a trailing user message. -/
theorem c9_provider_failure (db : DB) (userId : Nat) (req : SendReq)
    (oracle : AIOracle) (today : String)
    (hv : validateSend req = true)
    (hq : quotaExceeded db userId today = false)
    (hconv : ∀ cid, req.conversationId = some cid →
      db.conversations.any (fun cv => cv.id == cid) = true)
    (hfail : oracle.fails = true) :
    (sendHandler db userId req oracle today).result = .unavailable
    ∧ httpStatus .unavailable = 500
    ∧ httpError .unavailable = some "AI service temporarily unavailable"
    ∧ (sendHandler db userId req oracle today).db.user_usage = db.user_usage
    ∧ (∀ cid, req.conversationId = some cid →
        (sendHandler db userId req oracle today).db.conversations
          = db.conversations
        ∧ (sendHandler db userId req oracle today).db.messages
          = db.messages
            ++ [{ id := db.nextMsgId, conversation_id := cid, role := "user",
                  content := req.message, tokens_used := 0, cost := 0,
                  created_at := db.clock }])
    ∧ (req.conversationId = none →
        (sendHandler db userId req oracle today).db.conversations
          = db.conversations
            ++ [{ id := db.nextConvId, user_id := userId,
                  title := req.message.take 50 ++ "...",
                  provider := req.provider, model := req.model,
                  created_at := db.clock, updated_at := db.clock }]
        ∧ (sendHandler db userId req oracle today).db.messages
          = db.messages
            ++ [{ id := db.nextMsgId, conversation_id := db.nextConvId,
                  role := "user", content := req.message, tokens_used := 0,
                  cost := 0, created_at := db.clock + 1 }]) := by
  rcases validate_provider hv with hpv | hpv <;>
    rcases hcv : req.conversationId with _ | cid
  · refine ⟨?_, rfl, rfl, ?_, ?_, ?_⟩
    · simp [sendHandler, stageConv, newConversation, insertMessage,
        callGoogleAI_fails, hfail, hv, hq, hpv, hcv]
    · simp [sendHandler, stageConv, newConversation, insertMessage,
        callGoogleAI_fails, hfail, hv, hq, hpv, hcv]
    · intro cid h
      exact absurd h (by simp)
    · intro _
      constructor <;>
        simp [sendHandler, stageConv, newConversation, insertMessage,
          callGoogleAI_fails, hfail, hv, hq, hpv, hcv]
  · have hex := hconv cid hcv
    refine ⟨?_, rfl, rfl, ?_, ?_, ?_⟩
    · simp [sendHandler, stageConv, insertMessage, callGoogleAI_fails, hfail,
        hv, hq, hpv, hcv, hex]
    · simp [sendHandler, stageConv, insertMessage, callGoogleAI_fails, hfail,
        hv, hq, hpv, hcv, hex]
    · intro cid2 h2
      have hcc : cid2 = cid := (Option.some.inj h2).symm
      subst hcc
      constructor <;>
        simp [sendHandler, stageConv, insertMessage, callGoogleAI_fails, hfail,
          hv, hq, hpv, hcv, hex]
    · intro h
      exact absurd h (by simp)
  · refine ⟨?_, rfl, rfl, ?_, ?_, ?_⟩
    · simp [sendHandler, stageConv, newConversation, insertMessage,
        callOpenRouter_fails, hfail, hv, hq, hpv, hcv]
    · simp [sendHandler, stageConv, newConversation, insertMessage,
        callOpenRouter_fails, hfail, hv, hq, hpv, hcv]
    · intro cid h
      exact absurd h (by simp)
    · intro _
      constructor <;>
        simp [sendHandler, stageConv, newConversation, insertMessage,
          callOpenRouter_fails, hfail, hv, hq, hpv, hcv]
  · have hex := hconv cid hcv
    refine ⟨?_, rfl, rfl, ?_, ?_, ?_⟩
    · simp [sendHandler, stageConv, insertMessage, callOpenRouter_fails, hfail,
        hv, hq, hpv, hcv, hex]
    · simp [sendHandler, stageConv, insertMessage, callOpenRouter_fails, hfail,
        hv, hq, hpv, hcv, hex]
    · intro cid2 h2
      have hcc : cid2 = cid := (Option.some.inj h2).symm
      subst hcc
      constructor <;>
        simp [sendHandler, stageConv, insertMessage, callOpenRouter_fails,
          hfail, hv, hq, hpv, hcv, hex]
    · intro h
      exact absurd h (by simp)

def c9wdb : DB :=
  { users := [⟨1, "a@ex.com", "Alice", "user", true⟩],
    conversations := [⟨4, 1, "mine", "google", "gemini-pro", 0, 0⟩],
    messages := [], user_usage := [],
    settings := [("max_messages_per_day", "100")],
    api_keys := [⟨"google", "gk", true⟩],
    nextConvId := 5, nextMsgId := 1, clock := 9 }

def c9wreq : SendReq :=
  { message := "will fail", conversationId := some 4, provider := "google",
    model := "gemini-pro" }

def c9woracle : AIOracle := { fails := true, text := "", totalTokens := none }

/-- C9 witness: the theorem applied to a concrete send whose provider call
throws. -/
theorem c9_provider_failure_witness :
    (sendHandler c9wdb 1 c9wreq c9woracle "2026-02-03").result = .unavailable
    ∧ httpStatus .unavailable = 500
    ∧ httpError .unavailable = some "AI service temporarily unavailable"
    ∧ (sendHandler c9wdb 1 c9wreq c9woracle "2026-02-03").db.user_usage
        = c9wdb.user_usage
    ∧ (∀ cid, c9wreq.conversationId = some cid →
        (sendHandler c9wdb 1 c9wreq c9woracle "2026-02-03").db.conversations
          = c9wdb.conversations
        ∧ (sendHandler c9wdb 1 c9wreq c9woracle "2026-02-03").db.messages
          = c9wdb.messages
            ++ [{ id := c9wdb.nextMsgId, conversation_id := cid,
                  role := "user", content := c9wreq.message, tokens_used := 0,
                  cost := 0, created_at := c9wdb.clock }])
    ∧ (c9wreq.conversationId = none →
        (sendHandler c9wdb 1 c9wreq c9woracle "2026-02-03").db.conversations
          = c9wdb.conversations
            ++ [{ id := c9wdb.nextConvId, user_id := 1,
                  title := c9wreq.message.take 50 ++ "...",
                  provider := c9wreq.provider, model := c9wreq.model,
                  created_at := c9wdb.clock, updated_at := c9wdb.clock }]
        ∧ (sendHandler c9wdb 1 c9wreq c9woracle "2026-02-03").db.messages
          = c9wdb.messages
            ++ [{ id := c9wdb.nextMsgId, conversation_id := c9wdb.nextConvId,
                  role := "user", content := c9wreq.message, tokens_used := 0,
                  cost := 0, created_at := c9wdb.clock + 1 }]) :=
  c9_provider_failure c9wdb 1 c9wreq c9woracle "2026-02-03" (by decide)
    (by decide)
    (by
      intro cid h
      have h2 : cid = 4 := (Option.some.inj h).symm
      subst h2
      decide)
    (by decide)

/-- In a list sorted by `created_at`, an element of the first `k` positions
has fewer than `k` strictly-earlier elements in the whole list. -/
theorem countP_lt_of_mem_take (x : Message) :
    ∀ (l : List Message) (k : Nat), List.Pairwise msgLE l → x ∈ l.take k →
    l.countP (fun m => decide (m.created_at < x.created_at)) < k := by
  intro l
  induction l with
  | nil => intro k _ hx; simp at hx
  | cons a t ih =>
    intro k hs hx
    cases k with
    | zero => simp at hx
    | succ k2 =>
      rw [List.take_succ_cons] at hx
      rw [List.countP_cons]
      rcases List.mem_cons.mp hx with rfl | hx2
      · have hall : t.countP (fun m => decide (m.created_at < x.created_at))
            = 0 := by
          rw [List.countP_eq_zero]
          intro m hm
          have h2 := (List.pairwise_cons.mp hs).1 m hm
          unfold msgLE at h2
          simp only [decide_eq_true_eq]
          omega
        rw [hall]
        rw [if_neg (by simp)]
        omega
      · have h3 := ih k2 (List.pairwise_cons.mp hs).2 hx2
        split <;> omega

/-- An element with at least `k` strictly-earlier elements cannot appear in
the first `k` rows of the `created_at`-ordered listing. -/
theorem not_mem_history_take (msgs : List Message) (x : Message) (k : Nat)
    (hcount : k ≤ msgs.countP (fun m => decide (m.created_at < x.created_at))) :
    x ∉ (List.insertionSort msgLE msgs).take k := by
  intro hmem
  have hs := List.sorted_insertionSort msgLE msgs
  have h1 := countP_lt_of_mem_take x (List.insertionSort msgLE msgs) k hs hmem
  have h2 := (List.perm_insertionSort msgLE msgs).countP_eq
    (fun m => decide (m.created_at < x.created_at))
  omega

/-- The row `INSERT INTO messages (conversation_id, role, content)` stores
for the incoming user message (counters default to 0). -/
def newUserMsg (db : DB) (cid : Nat) (content : String) : Message :=
  { id := db.nextMsgId, conversation_id := cid, role := "user",
    content := content, tokens_used := 0, cost := 0, created_at := db.clock }

/-- C10: the context handed to the adapter is
`ORDER BY created_at ASC LIMIT 20` over the conversation — its 20 oldest
rows.  In a conversation already holding 20 or more messages (strictly
increasing timestamps, all before the current clock), the user message just
inserted by this send is absent from the dispatched history. -/
theorem c10_history_excludes_new (db : DB) (userId : Nat) (req : SendReq)
    (oracle : AIOracle) (today : String) (cid : Nat)
    (hv : validateSend req = true)
    (hq : quotaExceeded db userId today = false)
    (hc : req.conversationId = some cid)
    (hex : db.conversations.any (fun cv => cv.id == cid) = true)
    (hcount : 20 ≤
      (db.messages.filter (fun m => m.conversation_id == cid)).length)
    (_hinc : (db.messages.filter (fun m => m.conversation_id == cid)).Pairwise
      (fun a b => a.created_at < b.created_at))
    (hclock : ∀ m ∈ db.messages, m.created_at < db.clock)
    (hids : ∀ m ∈ db.messages, m.id ≠ db.nextMsgId) :
    ∃ h, (sendHandler db userId req oracle today).histRows = some h
      ∧ h = (List.insertionSort msgLE
          ((db.messages ++ [newUserMsg db cid req.message]).filter
            (fun m => m.conversation_id == cid))).take 20
      ∧ h.length ≤ 20
      ∧ (∀ m ∈ h, m.id ≠ db.nextMsgId) := by
  have hhist : (sendHandler db userId req oracle today).histRows
      = some (historyQuery
          { db with
            messages := db.messages ++ [newUserMsg db cid req.message],
            nextMsgId := db.nextMsgId + 1, clock := db.clock + 1 } cid) := by
    rcases validate_provider hv with hpv | hpv
    · rcases hkk : activeApiKey db.api_keys "google" with _ | k <;>
        cases hff : oracle.fails <;>
        simp [sendHandler, stageConv, insertMessage, finishSend, callGoogleAI,
          newUserMsg, hv, hq, hpv, hc, hex, hkk, hff]
    · rcases hkk : activeApiKey db.api_keys "openrouter" with _ | k <;>
        cases hff : oracle.fails <;>
        simp [sendHandler, stageConv, insertMessage, finishSend, callOpenRouter,
          newUserMsg, hv, hq, hpv, hc, hex, hkk, hff]
  have hfilter : ((db.messages ++ [newUserMsg db cid req.message]).filter
        (fun m => m.conversation_id == cid))
      = db.messages.filter (fun m => m.conversation_id == cid)
        ++ [newUserMsg db cid req.message] := by
    rw [List.filter_append]
    simp [newUserMsg]
  refine ⟨_, hhist, rfl, ?_, ?_⟩
  · simp [historyQuery, List.length_take]
  · have hcountA : (db.messages.filter
        (fun m => m.conversation_id == cid)).countP
          (fun m => decide (m.created_at < db.clock))
        = (db.messages.filter (fun m => m.conversation_id == cid)).length := by
      rw [List.countP_eq_length]
      intro m hm
      simp only [decide_eq_true_eq]
      exact hclock m (List.mem_of_mem_filter hm)
    intro m hm hmid
    rw [show historyQuery
          { db with
            messages := db.messages ++ [newUserMsg db cid req.message],
            nextMsgId := db.nextMsgId + 1, clock := db.clock + 1 } cid
        = (List.insertionSort msgLE
            (db.messages.filter (fun m => m.conversation_id == cid)
              ++ [newUserMsg db cid req.message])).take 20 from by
      unfold historyQuery
      rw [← hfilter]] at hm
    have hmem2 : m ∈ db.messages.filter (fun m => m.conversation_id == cid)
        ++ [newUserMsg db cid req.message] :=
      ((List.perm_insertionSort msgLE _).mem_iff).mp (List.take_subset _ _ hm)
    rcases List.mem_append.mp hmem2 with hA | hnm
    · exact hids m (List.mem_of_mem_filter hA) hmid
    · rw [List.mem_singleton] at hnm
      subst hnm
      refine not_mem_history_take _ _ 20 ?_ hm
      rw [List.countP_append]
      have h4 : (newUserMsg db cid req.message).created_at = db.clock := rfl
      rw [h4]
      omega

def c10wdb : DB :=
  { users := [⟨1, "a@ex.com", "Alice", "user", true⟩],
    conversations := [⟨1, 1, "long thread", "google", "gemini-pro", 0, 0⟩],
    messages := (List.range 20).map
      (fun i => ⟨i + 100, 1, "user", "m", 0, 0, i⟩),
    user_usage := [], settings := [("max_messages_per_day", "100")],
    api_keys := [⟨"google", "gk", true⟩],
    nextConvId := 2, nextMsgId := 50, clock := 30 }

def c10wreq : SendReq :=
  { message := "message twenty-one", conversationId := some 1,
    provider := "google", model := "gemini-pro" }

def c10woracle : AIOracle := { fails := false, text := "resp", totalTokens := none }

/-- C10 witness: the theorem applied to a conversation already holding 20
messages with strictly increasing timestamps. -/
theorem c10_history_excludes_new_witness :
    ∃ h, (sendHandler c10wdb 1 c10wreq c10woracle "2026-02-03").histRows
        = some h
      ∧ h = (List.insertionSort msgLE
          ((c10wdb.messages ++ [newUserMsg c10wdb 1 c10wreq.message]).filter
            (fun m => m.conversation_id == 1))).take 20
      ∧ h.length ≤ 20
      ∧ (∀ m ∈ h, m.id ≠ c10wdb.nextMsgId) :=
  c10_history_excludes_new c10wdb 1 c10wreq c10woracle "2026-02-03" 1
    (by decide) (by decide) (by decide) (by decide) (by decide) (by decide)
    (by decide) (by decide)
